import Mathlib

/-!
Verification of `eval/extension/prompts/system_prompt.py`.

The module has two functions:

* `get_python_env_path` — a plain (synchronous) function that reads the
  `PYTHON_ENV_PATH` environment variable via `os.environ.get(key, None)`
  inside a `try/except` whose handler prints a diagnostic and falls through
  to `return None`;
* `system_prompt` — an `async` function that evaluates
  `await get_python_env_path() or ""`, reads `os.getcwd()`, and returns a
  large f-string template interpolating the working directory (seven slots),
  `platform.system()`, `os.environ.get('SHELL', 'Unknown')`, the interpreter
  path and `os.path.expanduser('~')`.

The embedding models the process state (environment mapping, platform name,
current working directory, home directory) explicitly, models Python values
flowing through `await`/`or` with a small value type `PyVal`, and transcribes
the f-string as a concatenation of its literal parts and interpolation
fields.  `await` of a value that is not awaitable raises `TypeError` in
Python; `pyAwait` reflects that, which is decisive for the error-handling
claims: `get_python_env_path` is synchronous, so its result (a string or
`None`) is never awaitable.
-/

/-- A Python runtime value as it can flow through this module: `None`, a
string, or a coroutine object (what an `async def` call returns, carrying
the value its awaiting produces). -/
inductive PyVal where
  | vnone : PyVal
  | vstr : String → PyVal
  | vcoro : PyVal → PyVal
deriving DecidableEq, Repr

/-- Python truthiness for the values of `PyVal`: `None` is falsy, a string
is truthy iff nonempty, a coroutine object is truthy. -/
def pyTruthy : PyVal → Bool
  | PyVal.vnone => false
  | PyVal.vstr s => !(s == "")
  | PyVal.vcoro _ => true

/-- Python `a or b`: `a` when `a` is truthy, otherwise `b`. -/
def pyOr (a b : PyVal) : PyVal :=
  if pyTruthy a then a else b

/-- Python `await v`: a coroutine completes with its result; awaiting `None`
or a `str` raises `TypeError: object ... can't be used in 'await'
expression`. -/
def pyAwait : PyVal → Except String PyVal
  | PyVal.vcoro r => Except.ok r
  | PyVal.vnone =>
      Except.error "TypeError: object NoneType can't be used in 'await' expression"
  | PyVal.vstr _ =>
      Except.error "TypeError: object str can't be used in 'await' expression"

/-- How an f-string renders a `PyVal` (`str(v)`); in this module only the
`vstr` branch is reachable. -/
def pyToString : PyVal → String
  | PyVal.vstr s => s
  | PyVal.vnone => "None"
  | PyVal.vcoro _ => "<coroutine>"

/-- `os.environ.get(key, default)` with an arbitrary default: a mapping
lookup with an explicit default.  It is total — `dict.get` does not raise. -/
def os_environ_get (environ : String → Option String) (key : String)
    (dflt : PyVal) : PyVal :=
  match environ key with
  | some v => PyVal.vstr v
  | none => dflt

/-- The body of the `try` block of `get_python_env_path`:
`os.environ.get("PYTHON_ENV_PATH", None)`.  The operation is total, so the
result is always `Except.ok`. -/
def try_python_env_path (environ : String → Option String) : Except String PyVal :=
  Except.ok (os_environ_get environ "PYTHON_ENV_PATH" PyVal.vnone)

/-- `get_python_env_path()`: returns the `try` block's value; on an
exception the handler prints `"Failed to get python env path"` (collected
here as a log) and the function returns `None`.  The second component is
the list of diagnostics printed. -/
def get_python_env_path (environ : String → Option String) :
    PyVal × List String :=
  match try_python_env_path environ with
  | Except.ok v => (v, [])
  | Except.error e => (PyVal.vnone, ["Failed to get python env path " ++ e])

/-- The process state `system_prompt` reads: `os.environ`,
`platform.system()`, `os.getcwd()` and `os.path.expanduser('~')`. -/
structure ProcState where
  environ : String → Option String
  platform_system : String
  getcwd : String
  expanduser_home : String

/-- Python Environment line rendered with the empty default: what line 15
computes when the awaited value is falsy (`None` or the empty string). -/
def or_empty (v : PyVal) : String :=
  pyToString (pyOr v (PyVal.vstr ""))

example : or_empty PyVal.vnone = "" := rfl
example : or_empty (PyVal.vstr "") = "" := rfl
example : or_empty (PyVal.vstr "/usr/bin/python3") = "/usr/bin/python3" := rfl

example :
    pyAwait (get_python_env_path (fun _ => none)).1 =
      Except.error "TypeError: object NoneType can't be used in 'await' expression" := rfl
example :
    pyAwait (get_python_env_path (fun _ => some "/usr/bin/python3")).1 =
      Except.error "TypeError: object str can't be used in 'await' expression" := rfl
/-- Fixed template text of the system_prompt f-string (lit_intro) after its
two opening line breaks. -/
def lit_intro_tail : String :=
"You are Kodu.AI, a highly skilled software developer with extensive knowledge in many programming languages, frameworks, design patterns, and best practices.
You keep track of your progress and ensure you're on the right track to accomplish the user's task.
You update your memory with a summary of changes and the complete content of the task history in markdown.
You are a deep thinker who thinks step by step with a first principles approach.
You tend to think between 3-10+ different thoughts depending on the complexity of the question.
You think first, then work after you gather your thoughts to a favorable conclusion.

<non-negotiables>
- SUPER CRITICAL: on the user first message you must create a task history which will store your plan of solving the user's task in the form of actionable markdown todo elements.
- SUPER CRITICAL: YOU MUST always use upsert_memory tool to update your task history with a summary of changes and the complete content of the task history in markdown.
- SUPER CRITICAL: YOU MUST always have a clear seperation between your thoughts, actions and user communication.
  - thoughts should be in <thinking></thinking> tags.
  - actions should be tool calls.
  - user communication should be outside of <thinking></thinking> tags.
- SUPER CRITICAL: When you need to read or edit a file you have already read or edited, you can assume its contents have not changed since then (unless specified otherwise by the user) and skip using the read_file tool before proceeding.
</non-negotiables>

"

/-- Fixed template text of the system_prompt f-string (lit_intro): the
f-string opens with the line break following `f\"\"\"` and the blank line
19, then the preamble and non-negotiables text. -/
def lit_intro : String := "\n\n" ++ lit_intro_tail

/-- Fixed template text of the system_prompt f-string (lit_cap_a). -/
def lit_cap_a : String :=
"<capbilities>
- You can read and analyze code in various programming languages, and can write clean, efficient, and well-documented code.
- You can debug complex issues and providing detailed explanations, offering architectural insights and design patterns.
- You have access to tools that let you execute CLI commands on the user's computer, list files in a directory (top level or recursively), extract source code definitions, read and write files, and ask follow-up questions. These tools help you effectively accomplish a wide range of tasks, such as writing code, making edits or improvements to existing files, understanding the current state of a project, performing system operations, and much more.
- When the user initially gives you a task, a recursive list of all filepaths in the current working directory ('$"

/-- Fixed template text of the system_prompt f-string (lit_cap_b). -/
def lit_cap_b : String :=
"') will be included in potentially_relevant_details. This provides an overview of the project's file structure, offering key insights into the project from directory/file names (how developers conceptualize and organize their code) and file extensions (the language used). This can also guide decision-making on which files to explore further. If you need to further explore directories such as outside the current working directory, you can use the list_files tool. If you pass 'true' for the recursive parameter, it will list files recursively. Otherwise, it will list files at the top level, which is better suited for generic directories where you don't necessarily need the nested structure, like the Desktop.
- You can use search_files to perform regex searches across files in a specified directory, outputting context-rich results that include surrounding lines. This is particularly useful for understanding code patterns, finding specific implementations, or identifying areas that need refactoring.
- You can use the list_code_definition_names tool to get an overview of source code definitions for all files at the top level of a specified directory. This can be particularly useful when you need to understand the broader context and relationships between certain parts of the code. You may need to call this tool multiple times to understand various parts of the codebase related to the task.
\t- For example, when asked to make edits or improvements you might analyze the file structure in the initial potentially_relevant_details to get an overview of the project, then use list_code_definition_names to get further insight using source code definitions for files located in relevant directories, then read_file to examine the contents of relevant files, analyze the code and suggest improvements or make necessary edits, then use the write_to_file tool to implement changes. If you refactored code that could affect other parts of the codebase, you could use search_files to ensure you update other files as needed.
- The execute_command tool lets you run commands on the user's computer and should be used whenever you feel it can help accomplish the user's task. When you need to execute a CLI command, you must provide a clear explanation of what the command does. Prefer to execute complex CLI commands over creating executable scripts, since they are more flexible and easier to run. Interactive and long-running commands are allowed, since the user has the ability to send input to stdin and terminate the command on their own if needed.
- The web_search tool lets you search the web for information. You can provide a link to access directly or a search query, at both stages you are required to provide a general question about this web search. You can also ask the user for the link.
- The url_screenshot tool lets you take screenshots of a URL. You have to mandatorily provide a link to the URL you want to screenshot. You'll get the screenshot as a binary string.
- You have access to an ask_consultant tool which allows you to consult an expert software consultant for assistance when you're unable to solve a bug or need guidance.
- You have access to a upsert_memory tool which allows you to update the task history with a summary of changes and the complete content of the task history in markdown.
</capbilities>

"

/-- Fixed template text of the system_prompt f-string (lit_rules_a). -/
def lit_rules_a : String :=
"<rules>
- Your current working directory is: $"

/-- Fixed template text of the system_prompt f-string (lit_rules_b). -/
def lit_rules_b : String :=
"
- You cannot \\`cd\\` into a different directory to complete a task. You are stuck operating from '$"

/-- Fixed template text of the system_prompt f-string (lit_rules_c). -/
def lit_rules_c : String :=
"', so be sure to pass in the correct 'path' parameter when using tools that require a path.
- After the user first message you have to create a task history which will store your plan of solving the user's task in the form of actionable markdown todo elements.
  - You can write your task history and journal in markdown format using the upsert_memory tool.
  - You can decide to update the task history with a summary of changes and the complete content of the task history in markdown.
  - Make sure to update the task history after completing bunch of tasks regularly.
  - keeping the task history updated will help you keep track of your progress and ensure you're on the right track to accomplish the user's task.
  - don't ever be lazy to update the task history, it's a critical part of your workflow.
- Do not use the ~ character or $HOME to refer to the home directory.
- Before using the execute_command tool, you must first think about the SYSTEM INFORMATION context provided to understand the user's environment and tailor your commands to ensure they are compatible with their system. You must also consider if the command you need to run should be executed in a specific directory outside of the current working directory '$"

/-- Fixed template text of the system_prompt f-string (lit_rules_d). -/
def lit_rules_d : String :=
"', and if so prepend with \\`cd\\`'ing into that directory && then executing the command (as one command since you are stuck operating from '$"

/-- Fixed template text of the system_prompt f-string (lit_rules_e). -/
def lit_rules_e : String :=
"'). For example, if you needed to run \\`npm install\\` in a project outside of '$"

/-- Fixed template text of the system_prompt f-string (lit_rules_f). -/
def lit_rules_f : String :=
"', you would need to prepend with a \\`cd\\` i.e. pseudocode for this would be \\`cd (path to project) && (command, in this case npm install)\\`.
- If you need to read or edit a file you have already read or edited, you can assume its contents have not changed since then (unless specified otherwise by the user) and skip using the read_file tool before proceeding.
- When using the search_files tool, craft your regex patterns carefully to balance specificity and flexibility. Based on the user's task you may use it to find code patterns, TODO comments, function definitions, or any text-based information across the project. The results include context, so analyze the surrounding code to better understand the matches. Leverage the search_files tool in combination with other tools for more comprehensive analysis. For example, use it to find specific code patterns, then use read_file to examine the full context of interesting matches before using write_to_file to make informed changes.
- When creating a new project (such as an app, website, or any software project), organize all new files within a dedicated project directory unless the user specifies otherwise. Use appropriate file paths when writing files, as the write_to_file tool will automatically create any necessary directories. Structure the project logically, adhering to best practices for the specific type of project being created. Unless otherwise specified, new projects should be easily run without additional setup, for example most projects can be built in HTML, CSS, and JavaScript - which you can open in a browser.
- You must try to use multiple tools in one request when possible. For example if you were to create a website, you would use the write_to_file artifact to create the necessary files with their appropriate contents all at once. Or if you wanted to analyze a project, you could use the read_file tool multiple times to look at several key files. This will help you accomplish the user's task more efficiently.
- Be sure to consider the type of project (e.g. Python, JavaScript, web application) when determining the appropriate structure and files to include. Also consider what files may be most relevant to accomplishing the task, for example looking at a project's manifest file would help you understand the project's dependencies, which you could incorporate into any code you write.
- When making changes to code, always consider the context in which the code is being used. Ensure that your changes are compatible with the existing codebase and that they follow the project's coding standards and best practices.
- Do not ask for more information than necessary. Use the tools provided to accomplish the user's request efficiently and effectively. When you've completed your task, you must use the attempt_completion tool to present the result to the user. The user may provide feedback, which you can use to make improvements and try again.
- You are only allowed to ask the user questions using the ask_followup_question tool. Use this tool only when you need additional details to complete a task, and be sure to use a clear and concise question that will help you move forward with the task. However if you can use the available tools to avoid having to ask the user questions, you should do so. For example, if the user mentions a file that may be in an outside directory like the Desktop, you should use the list_files tool to list the files in the Desktop and check if the file they are talking about is there, rather than asking the user to provide the file path themselves.
- Your goal is to try to accomplish the user's task, NOT engage in a back and forth conversation.
- NEVER end completion_attempt with a question or request to engage in further conversation! Formulate the end of your result in a way that is final and does not require further input from the user.
- NEVER start your responses with affirmations like \"Certainly\", \"Okay\", \"Sure\", \"Great\", etc. You should NOT be conversational in your responses, but rather direct and to the point.
- Feel free to use markdown as much as you'd like in your responses. When using code blocks, always include a language specifier.
- When presented with images, utilize your vision capabilities to thoroughly examine them and extract meaningful information. Incorporate these insights into your thought process as you accomplish the user's task.
- CRITICAL: When editing files with write_to_file, ALWAYS provide the COMPLETE file content in your response. This is NON-NEGOTIABLE. Partial updates or placeholders like '// rest of code unchanged' are STRICTLY FORBIDDEN. You MUST include ALL parts of the file, even if they haven't been modified. Failure to do so will result in incomplete or broken code, severely impacting the user's project.
- when you want to preview a webapp you should use <preview link=\"href\">content</preview>  
</rules>

"

/-- Fixed template text of the system_prompt f-string (lit_mid). -/
def lit_mid : String :=
"<objective>
You accomplish a given task iteratively, breaking it down into clear steps and working through them methodically.

1. Analyze the user's task and set clear, achievable goals to accomplish it. Prioritize these goals in a logical order.
  1.1 Create initial plan of action for each task and milestone lists. This will help you stay focused and ensure you're moving in the right direction, after you create the plan you have to upsert the task history with the plan and keep updating it with the progress.
  1.2 once you reach a milestone, you have to update the task history with a summary of changes and the complete content of the task history in markdown.
  1.3 you should tell the user about the progress you made and the next steps you are planning to take in the next iteration.
  1.4 you should always keep the user updated with the progress you are making and the next steps you are planning to take.
2. Work through these goals sequentially, utilizing available tools as necessary. Each goal should correspond to a distinct step in your problem-solving process. It is okay for certain steps to take multiple iterations, i.e. if you need to create many files but are limited by your max output limitations, it's okay to create a few files at a time as each subsequent iteration will keep you informed on the work completed and what's remaining.
3. Remember, you have extensive capabilities with access to a wide range of tools that can be used in powerful and clever ways as necessary to accomplish each goal. Before calling a tool, do some analysis within <thinking></thinking> tags. First, analyze the file structure provided in potentially_relevant_details to gain context and insights for proceeding effectively. Then, think about which of the provided tools is the most relevant tool to accomplish the user's task. Next, go through each of the required parameters of the relevant tool and determine if the user has directly provided or given enough information to infer a value. When deciding if the parameter can be inferred, carefully consider all the context to see if it supports a specific value. If all of the required parameters are present or can be reasonably inferred, close the thinking tag and proceed with the tool call. BUT, if one of the values for a required parameter is missing, DO NOT invoke the function (not even with fillers for the missing params) and instead, ask the user to provide the missing parameters using the ask_followup_question tool. DO NOT ask for more information on optional parameters if it is not provided.
4. Once you've completed the user's task, you must use the attempt_completion tool to present the result of the task to the user. You may also provide a CLI command to showcase the result of your task; this can be particularly useful for web development tasks, where you can run e.g. \\`open index.html\\` to show the website you've built.
5. The user may provide feedback, which you can use to make improvements and try again. But DO NOT continue in pointless back and forth conversations, i.e. don't end your responses with questions or offers for further assistance.
6. When you feel like you can preview the user with website (react,vite,html,...) you can use execute_command to open the website in the browser, or you can provide a CLI command to showcase the result of your task; this can be particularly useful for web development tasks, where you can run e.g. \\`open index.html\\` to show the website you've built.
7. before finishing if it's a webapp you should ask the user if he want's to publish it, if he chooses to publish it you should:
  - first explain what you are going to do with clear comminucation and guidelines about how vercel works
  - then install vercel cli and deploy the website to vercel
  - then use vercel cli to get vercel website link and use <preview> tag to show the user the link to the website.
</objective>

<web-design-guidelines>
If you're building a website, you should follow these guidelines:
- Clean design, beautiful layout that is innovative and user-friendly.
- Responsive design that works well on all devices.
- Sophisticated color scheme that is visually appealing.
- Impressive typography that is easy to read.
- Placeholder images and text unless provided by the user.
- Consistent design elements throughout the website.
- Wow factor that makes the website stand out.
- If the user is non technical, prioritize asking for styling direction while utilizing your expertise to guide them.
- If the user is non technical, try to use shadcn defaults styling but build on top of it to create a unique design, that is clean, professional and beautiful, orange or purple color is usually a good choice.
- some pro tips when designing hero sections, using a combination of text, images, polygons, and potentially a gradient background can create a visually appealing and engaging hero section.
- If the user is technical, prioritize asking for specific requirements and implement them.
</web-design-guidelines>

<communication>
<commiunication-instructions>
- <thinking> is not part of the communication with the user, it is only used to show your thought process.
- when speaking with the user, you should close the <thinking> tag then open <talk> tag.
- Be clear and concise in your responses.
- Clear separation of thoughts and communication is important.
- Use proper markdown formatting for code blocks and other elements.
- you also have the ability to use the following XML Tags:
  <thinking>thinking</thinking> - to show your thought process when solving a problem, THIS MUST BE USED BEFORE USING A TOOL AND MUST BE ONLY USED FOR THOUGHT PROCESS.
  <call-to-action title=\"title\" level=\"warning|info|success\">content</call-to-action> - to provide a clear call to action for the user, call to action must be concise and to the point and should be used sparingly.
  <preview link=\"href\">content</preview> - to display a button that opens an external link, the content should be the text displayed on the button and href should be the link to open.
- multiple xml tags are allowed in a response but they cannot be nested (one inside the other)
- Use proper formating so think first, then talk and act if needed.
- Think deeply before acting, do at least 3 iterations of thought with <thinking></thinking> tags before proceeding with a tool. This will help you avoid mistakes and ensure you're on the right track.
- by seperating your thoughts from the user's communication you can provide a clear and concise response to the user.
- you can use multiple <thinking> tags in a response to show multiple iterations of thought before proceeding with a tool.
- you should close your current <thinking> tag before opening a new one or before communicating with the user.
- SUPER CRITICAL, you should not ask any questions to the user inside <thinking> tags.
- SUPER CRITICAL, you should not communicate with the user inside <thinking> tags.
</commiunication-instructions>
When communicating with the user, you should always think first, then act, and then communicate with the user
for example:
<thinking>The user want to build a website, i should first clone repository, then install dependencies, then ask questions about the website design and then start updating the website.</thinking>
<call-to-action title=\"Bostraping a website\" level=\"info\">
I'm going to start by cloning a great foundation for the website
</call-to-action>
</communication>


"

/-- Fixed template text of the system_prompt f-string (lit_si_a). -/
def lit_si_a : String :=
"<system-info>
Operating System: "

/-- Fixed template text of the system_prompt f-string (lit_si_b). -/
def lit_si_b : String :=
"
Default Shell: "

/-- Fixed template text of the system_prompt f-string (lit_si_c). -/
def lit_si_c : String :=
"
Python Environment: "

/-- Fixed template text of the system_prompt f-string (lit_si_d). -/
def lit_si_d : String :=
"
Home Directory: "

/-- Fixed template text of the system_prompt f-string (lit_si_e). -/
def lit_si_e : String :=
"
Current Working Directory: "

/-- Fixed template text of the system_prompt f-string (lit_si_f). -/
def lit_si_f : String :=
"
</system-info>
"


/-- The f-string of `system_prompt` (source lines 18-150) as a function of
what it interpolates: the literal parts in order, with the seven `cwd`
slots, `platform.system()`, `os.environ.get('SHELL', 'Unknown')`,
`python_env_path` and `os.path.expanduser('~')` substituted at their
positions.  The `$` of each `${cwd}` occurrence is literal template text
(the trailing character of the preceding literal); the `{cwd}` field of the
system-info section is bare. -/
def system_prompt_fstring (environ : String → Option String)
    (platform_system getcwd expanduser_home python_env_path : String) : String :=
  lit_intro ++ lit_cap_a ++ getcwd ++ lit_cap_b ++
  lit_rules_a ++ getcwd ++ lit_rules_b ++ getcwd ++ lit_rules_c ++ getcwd ++
  lit_rules_d ++ getcwd ++ lit_rules_e ++ getcwd ++ lit_rules_f ++
  lit_mid ++
  lit_si_a ++ platform_system ++
  lit_si_b ++ pyToString (os_environ_get environ "SHELL" (PyVal.vstr "Unknown")) ++
  lit_si_c ++ python_env_path ++
  lit_si_d ++ expanduser_home ++
  lit_si_e ++ getcwd ++
  lit_si_f

/-- `system_prompt()` in full: line 15 evaluates
`await get_python_env_path() or ""` — `get_python_env_path` is synchronous,
so the awaited value is a `str` or `None` and the `await` itself decides
whether a `TypeError` propagates; only on success would line 16 read the
working directory and the f-string be composed and returned.  The second
component is what the call printed. -/
def system_prompt (st : ProcState) : Except String String × List String :=
  let r := get_python_env_path st.environ
  match pyAwait r.1 with
  | Except.error e => (Except.error e, r.2)
  | Except.ok v =>
      (Except.ok (system_prompt_fstring st.environ st.platform_system st.getcwd
        st.expanduser_home (pyToString (pyOr v (PyVal.vstr "")))), r.2)

/-- The spec's EnvironmentFacts value object: the five resolved dynamic
facts the template interpolates. -/
structure EnvironmentFacts where
  workingDirectory : String
  operatingSystem : String
  defaultShell : String
  interpreterPath : String
  homeDirectory : String
deriving DecidableEq, Repr

/-- The facts `system_prompt`'s template resolves from the process state
and the interpreter-path value: shell defaults to `"Unknown"` when `SHELL`
is unset, exactly as `os.environ.get('SHELL', 'Unknown')` does. -/
def resolveFacts (st : ProcState) (python_env_path : String) : EnvironmentFacts :=
  { workingDirectory := st.getcwd
    operatingSystem := st.platform_system
    defaultShell := pyToString (os_environ_get st.environ "SHELL" (PyVal.vstr "Unknown"))
    interpreterPath := python_env_path
    homeDirectory := st.expanduser_home }

/-- One segment of the f-string: a literal run of template text, or one of
the five kinds of interpolation fields. -/
inductive Seg where
  | lit : String → Seg
  | cwdF : Seg
  | osF : Seg
  | shellF : Seg
  | pyF : Seg
  | homeF : Seg
deriving DecidableEq, Repr

/-- How one segment renders given the resolved facts. -/
def renderSeg (f : EnvironmentFacts) : Seg → String
  | Seg.lit s => s
  | Seg.cwdF => f.workingDirectory
  | Seg.osF => f.operatingSystem
  | Seg.shellF => f.defaultShell
  | Seg.pyF => f.interpreterPath
  | Seg.homeF => f.homeDirectory

/-- Concatenation of the rendered segments. -/
def renderList (f : EnvironmentFacts) : List Seg → String
  | [] => ""
  | s :: rest => renderSeg f s ++ renderList f rest

/-- The capabilities section (source lines 37-50 and the blank line after
it): one `${cwd}` slot, whose `$` ends `lit_cap_a`. -/
def capabilitiesSegs : List Seg :=
  [Seg.lit lit_cap_a, Seg.cwdF, Seg.lit lit_cap_b]

/-- The rules section (source lines 52-78 and the blank line after it):
five `${cwd}` slots. -/
def rulesSegs : List Seg :=
  [Seg.lit lit_rules_a, Seg.cwdF, Seg.lit lit_rules_b, Seg.cwdF,
   Seg.lit lit_rules_c, Seg.cwdF, Seg.lit lit_rules_d, Seg.cwdF,
   Seg.lit lit_rules_e, Seg.cwdF, Seg.lit lit_rules_f]

/-- The system-info section (source lines 143-149 and the final newline):
the OS, shell, interpreter-path and home fields and one bare `{cwd}`. -/
def systemInfoSegs : List Seg :=
  [Seg.lit lit_si_a, Seg.osF, Seg.lit lit_si_b, Seg.shellF,
   Seg.lit lit_si_c, Seg.pyF, Seg.lit lit_si_d, Seg.homeF,
   Seg.lit lit_si_e, Seg.cwdF, Seg.lit lit_si_f]

/-- The whole template as segments: the intro (preamble and
non-negotiables), the capabilities section, the rules section, the middle
fixed sections (objective, web-design-guidelines, communication), and the
system-info section. -/
def systemPromptSegs : List Seg :=
  Seg.lit lit_intro :: capabilitiesSegs ++ rulesSegs ++
    Seg.lit lit_mid :: systemInfoSegs

theorem string_append_assoc (a b c : String) : a ++ b ++ c = a ++ (b ++ c) := by
  apply String.ext
  simp [String.data_append, List.append_assoc]

theorem renderList_append (f : EnvironmentFacts) (l1 l2 : List Seg) :
    renderList f (l1 ++ l2) = renderList f l1 ++ renderList f l2 := by
  induction l1 with
  | nil =>
      apply String.ext
      simp [renderList, String.data_append]
  | cons s rest ih =>
      simp only [List.cons_append, renderList, List.append_eq, ih,
        string_append_assoc]

/-- Rendering the segments is the f-string: the segment view and the direct
transcription agree for every process state and interpreter-path value. -/
theorem renderList_systemPromptSegs (st : ProcState) (python_env_path : String) :
    renderList (resolveFacts st python_env_path) systemPromptSegs =
      system_prompt_fstring st.environ st.platform_system st.getcwd
        st.expanduser_home python_env_path := by
  apply String.ext
  simp only [systemPromptSegs, capabilitiesSegs, rulesSegs, systemInfoSegs,
    system_prompt_fstring, renderList, renderSeg, resolveFacts,
    List.cons_append, List.append_nil, List.nil_append, String.data_append]
  simp [String.data_append, List.append_assoc]

/-- An environment with no variables set: `SHELL` and `PYTHON_ENV_PATH` are
both absent. -/
def env_unset : String → Option String := fun _ => none

/-- The process state of the spec's scenario: `workingDirectory="/proj"`,
`operatingSystem="Linux"`, `defaultShell` absent, `interpreterPath` absent,
`homeDirectory="/home/u"`. -/
def stScenario : ProcState :=
  { environ := env_unset
    platform_system := "Linux"
    getcwd := "/proj"
    expanduser_home := "/home/u" }

/-- An environment in which an unrelated variable is set but `SHELL` and
`PYTHON_ENV_PATH` are still absent. -/
def env_other : String → Option String :=
  fun k => if k == "PATH" then some "/usr/bin" else none

/-- The scenario's process state with `env_other` as environment. -/
def stOther : ProcState :=
  { environ := env_other
    platform_system := "Linux"
    getcwd := "/proj"
    expanduser_home := "/home/u" }

/-- The scenario's facts, resolved. -/
def factsScenario : EnvironmentFacts :=
  { workingDirectory := "/proj"
    operatingSystem := "Linux"
    defaultShell := "Unknown"
    interpreterPath := ""
    homeDirectory := "/home/u" }

/-- The scenario's facts with a different working directory. -/
def factsOtherCwd : EnvironmentFacts :=
  { workingDirectory := "/elsewhere"
    operatingSystem := "Linux"
    defaultShell := "Unknown"
    interpreterPath := ""
    homeDirectory := "/home/u" }

/-- C1: the composition never completes, let alone fails gracefully: for
every process state, `system_prompt` raises — `get_python_env_path` is a
synchronous function, so the value line 15 awaits is a `str` or `None`,
and `await` of either raises `TypeError` before the template is composed.
The `try/except` inside `get_python_env_path` cannot catch this: the error
is raised by the `await` in `system_prompt` itself. -/
theorem c1_system_prompt_always_raises (st : ProcState) :
    ∃ e, (system_prompt st).1 = Except.error e := by
  cases h : st.environ "PYTHON_ENV_PATH" with
  | none =>
      exact ⟨"TypeError: object NoneType can't be used in 'await' expression",
        by simp [system_prompt, get_python_env_path, try_python_env_path,
          os_environ_get, h, pyAwait]⟩
  | some v =>
      exact ⟨"TypeError: object str can't be used in 'await' expression",
        by simp [system_prompt, get_python_env_path, try_python_env_path,
          os_environ_get, h, pyAwait]⟩

/-- The system-info section as the scenario composes it. -/
def si_block_scenario : String :=
  lit_si_a ++ "Linux" ++ lit_si_b ++ "Unknown" ++ lit_si_c ++ "" ++
    lit_si_d ++ "/home/u" ++ lit_si_e ++ "/proj" ++ lit_si_f

/-- C2: in the spec's scenario the resolved facts are exactly
`factsScenario`; every segment of the template renders to its fixed text or
to the expected fact (`"/proj"` at each of the seven cwd slots, `"Linux"`
at the OS slot, `"Unknown"` at the shell slot, `""` at the interpreter
slot, `"/home/u"` at the home slot); the composed document is the
concatenation of those renders; and its system-info section reads exactly
as expected. -/
theorem c2_scenario_document :
    resolveFacts stScenario "" = factsScenario ∧
    systemPromptSegs.map (renderSeg (resolveFacts stScenario "")) =
      [lit_intro, lit_cap_a, "/proj", lit_cap_b,
       lit_rules_a, "/proj", lit_rules_b, "/proj", lit_rules_c, "/proj",
       lit_rules_d, "/proj", lit_rules_e, "/proj", lit_rules_f,
       lit_mid,
       lit_si_a, "Linux", lit_si_b, "Unknown", lit_si_c, "",
       lit_si_d, "/home/u", lit_si_e, "/proj", lit_si_f] ∧
    renderList (resolveFacts stScenario "") systemPromptSegs =
      system_prompt_fstring env_unset "Linux" "/proj" "/home/u" "" ∧
    si_block_scenario =
      "<system-info>\nOperating System: Linux\nDefault Shell: Unknown\nPython Environment: \nHome Directory: /home/u\nCurrent Working Directory: /proj\n</system-info>\n" ∧
    system_prompt_fstring env_unset "Linux" "/proj" "/home/u" "" =
      (lit_intro ++ lit_cap_a ++ "/proj" ++ lit_cap_b ++
        lit_rules_a ++ "/proj" ++ lit_rules_b ++ "/proj" ++ lit_rules_c ++ "/proj" ++
        lit_rules_d ++ "/proj" ++ lit_rules_e ++ "/proj" ++ lit_rules_f ++ lit_mid) ++
      si_block_scenario := by
  refine ⟨rfl, rfl, ?_, rfl, ?_⟩
  · exact renderList_systemPromptSegs stScenario ""
  · simp only [system_prompt_fstring, si_block_scenario, os_environ_get,
      env_unset, pyToString, string_append_assoc]

/-- C6: with `PYTHON_ENV_PATH` unset, `get_python_env_path` returns `None`
without raising and prints nothing; the `or ""` default would turn that
into the empty string; but line 15 awaits the non-awaitable `None` first,
so the resolution raises `TypeError` instead of delivering the empty-string
field. -/
theorem c6_unset_interpreter_path :
    get_python_env_path env_unset = (PyVal.vnone, []) ∧
    or_empty PyVal.vnone = "" ∧
    (system_prompt stScenario).1 =
      Except.error "TypeError: object NoneType can't be used in 'await' expression" :=
  ⟨rfl, rfl, rfl⟩

/-- C8: the `except` handler of `get_python_env_path` is dead code: the
`try` body — `os.environ.get("PYTHON_ENV_PATH", None)` — is a total mapping
lookup, so for every environment the function returns through the `try`
branch (the variable's value, or `None` when unset) and prints no
diagnostic. -/
theorem c8_handler_is_dead_code (environ : String → Option String) :
    try_python_env_path environ =
      Except.ok (os_environ_get environ "PYTHON_ENV_PATH" PyVal.vnone) ∧
    get_python_env_path environ =
      (os_environ_get environ "PYTHON_ENV_PATH" PyVal.vnone, []) ∧
    (∀ v, environ "PYTHON_ENV_PATH" = some v →
      (get_python_env_path environ).1 = PyVal.vstr v) ∧
    (environ "PYTHON_ENV_PATH" = none →
      (get_python_env_path environ).1 = PyVal.vnone) := by
  refine ⟨rfl, rfl, ?_, ?_⟩
  · intro v h
    simp [get_python_env_path, try_python_env_path, os_environ_get, h]
  · intro h
    simp [get_python_env_path, try_python_env_path, os_environ_get, h]

/-- C3: the composed documents of any two fact inputs agree at every
literal segment of the template (every byte outside the substitution
slots), and when the two inputs agree on the OS, shell, interpreter-path
and home facts — differing at most in the working directory — every
segment other than a working-directory slot renders identically, so the
documents differ only in the working-directory substitutions. -/
theorem c3_differences_only_at_slots (f1 f2 : EnvironmentFacts)
    (hos : f1.operatingSystem = f2.operatingSystem)
    (hsh : f1.defaultShell = f2.defaultShell)
    (hpy : f1.interpreterPath = f2.interpreterPath)
    (hhome : f1.homeDirectory = f2.homeDirectory) :
    (∀ g1 g2 : EnvironmentFacts, ∀ s ∈ systemPromptSegs, ∀ t,
      s = Seg.lit t → renderSeg g1 s = renderSeg g2 s) ∧
    (∀ s ∈ systemPromptSegs, s ≠ Seg.cwdF → renderSeg f1 s = renderSeg f2 s) ∧
    (∀ s ∈ systemPromptSegs, s = Seg.cwdF →
      renderSeg f1 s = f1.workingDirectory ∧
      renderSeg f2 s = f2.workingDirectory) := by
  refine ⟨?_, ?_, ?_⟩
  · intro g1 g2 s _ t ht
    subst ht
    rfl
  · intro s _ hne
    cases s with
    | lit t => rfl
    | cwdF => exact absurd rfl hne
    | osF => exact hos
    | shellF => exact hsh
    | pyF => exact hpy
    | homeF => exact hhome
  · intro s _ hs
    subst hs
    exact ⟨rfl, rfl⟩

/-- Witness for C3 at the scenario facts and the same facts with another
working directory: the operating-system slot renders identically. -/
theorem c3_witness :
    renderSeg factsScenario Seg.osF = renderSeg factsOtherCwd Seg.osF :=
  (c3_differences_only_at_slots factsScenario factsOtherCwd rfl rfl rfl rfl).2.1
    Seg.osF (by decide) (by decide)

/-- C4: the composition is deterministic in the five resolved facts and
depends on no other process state: two process states that agree on the
`SHELL` variable, the platform name, the working directory and the home
directory — the environment may differ anywhere else — and equal
interpreter-path values compose byte-identical documents. -/
theorem c4_deterministic_in_facts (st1 st2 : ProcState) (py1 py2 : String)
    (henv : st1.environ "SHELL" = st2.environ "SHELL")
    (hos : st1.platform_system = st2.platform_system)
    (hcwd : st1.getcwd = st2.getcwd)
    (hhome : st1.expanduser_home = st2.expanduser_home)
    (hpy : py1 = py2) :
    system_prompt_fstring st1.environ st1.platform_system st1.getcwd
      st1.expanduser_home py1 =
    system_prompt_fstring st2.environ st2.platform_system st2.getcwd
      st2.expanduser_home py2 := by
  subst hpy
  unfold system_prompt_fstring os_environ_get
  rw [henv, hos, hcwd, hhome]

/-- Witness for C4: the scenario state and the state whose environment has
an unrelated variable set compose byte-identical documents. -/
theorem c4_witness :
    system_prompt_fstring stOther.environ stOther.platform_system
      stOther.getcwd stOther.expanduser_home "" =
    system_prompt_fstring stScenario.environ stScenario.platform_system
      stScenario.getcwd stScenario.expanduser_home "" :=
  c4_deterministic_in_facts stOther stScenario "" "" rfl rfl rfl rfl rfl

/-- C5: the working directory appears verbatim: every working-directory
slot renders exactly `f.workingDirectory` (no truncation, no
normalization), such a slot occurs in the capabilities section, the rules
section and the system-info section, and the composed document is the
concatenation of the rendered segments, so it contains the value verbatim
— exhibited by an explicit decomposition around the first slot. -/
theorem c5_cwd_verbatim (f : EnvironmentFacts) :
    renderSeg f Seg.cwdF = f.workingDirectory ∧
    Seg.cwdF ∈ capabilitiesSegs ∧ Seg.cwdF ∈ rulesSegs ∧
    Seg.cwdF ∈ systemInfoSegs ∧
    (∀ s ∈ systemPromptSegs, s = Seg.cwdF →
      renderSeg f s = f.workingDirectory) ∧
    ∃ pre post, renderList f systemPromptSegs =
      pre ++ (f.workingDirectory ++ post) := by
  refine ⟨rfl, by decide, by decide, by decide, ?_, ?_⟩
  · intro s _ hs
    subst hs
    rfl
  · refine ⟨lit_intro ++ lit_cap_a,
      renderList f (Seg.lit lit_cap_b ::
        (rulesSegs ++ Seg.lit lit_mid :: systemInfoSegs)), ?_⟩
    simp only [systemPromptSegs, capabilitiesSegs, List.cons_append,
      renderList, renderSeg, string_append_assoc]

/-- C7: when `SHELL` is unset the resolver yields the literal fallback
`"Unknown"`, and the composed document contains `"Unknown"` at the shell
slot: it decomposes around `lit_si_b` (`"\nDefault Shell: "`) followed
immediately by `"Unknown"`. -/
theorem c7_shell_fallback_unknown (st : ProcState) (py : String)
    (h : st.environ "SHELL" = none) :
    (resolveFacts st py).defaultShell = "Unknown" ∧
    ∃ pre post,
      system_prompt_fstring st.environ st.platform_system st.getcwd
        st.expanduser_home py = pre ++ (lit_si_b ++ ("Unknown" ++ post)) := by
  constructor
  · simp [resolveFacts, os_environ_get, h, pyToString]
  · refine ⟨lit_intro ++ lit_cap_a ++ st.getcwd ++ lit_cap_b ++
      lit_rules_a ++ st.getcwd ++ lit_rules_b ++ st.getcwd ++ lit_rules_c ++
      st.getcwd ++ lit_rules_d ++ st.getcwd ++ lit_rules_e ++ st.getcwd ++
      lit_rules_f ++ lit_mid ++ lit_si_a ++ st.platform_system,
      lit_si_c ++ py ++ lit_si_d ++ st.expanduser_home ++ lit_si_e ++
        st.getcwd ++ lit_si_f, ?_⟩
    unfold system_prompt_fstring os_environ_get
    rw [h]
    simp only [pyToString, string_append_assoc]

/-- Witness for C7 at the scenario state. -/
theorem c7_witness :
    (resolveFacts stScenario "").defaultShell = "Unknown" ∧
    ∃ pre post,
      system_prompt_fstring stScenario.environ stScenario.platform_system
        stScenario.getcwd stScenario.expanduser_home "" =
        pre ++ (lit_si_b ++ ("Unknown" ++ post)) :=
  c7_shell_fallback_unknown stScenario "" rfl

/-- Whether a literal run of template text ends in the character `$`. -/
def endsWithDollar (s : String) : Bool :=
  s.data.getLast? == some '$'

/-- An adjacent segment pair that spells a `${cwd}` slot: a literal ending
in `$` followed directly by a working-directory field. -/
def isDollarCwd : Seg → Seg → Bool
  | Seg.lit s, Seg.cwdF => endsWithDollar s
  | _, _ => false

/-- An adjacent segment pair that spells a bare `{cwd}` slot: a literal not
ending in `$` followed directly by a working-directory field. -/
def isBareCwd : Seg → Seg → Bool
  | Seg.lit s, Seg.cwdF => !endsWithDollar s
  | _, _ => false

/-- How many adjacent segment pairs of a list satisfy `p`. -/
def countPairs (p : Seg → Seg → Bool) : List Seg → Nat
  | a :: b :: rest => (if p a b then 1 else 0) + countPairs p (b :: rest)
  | _ => 0

set_option maxRecDepth 8000 in
/-- C9's slot count as the claim states it is false: the rules section has
five `${cwd}` slots (line 53, line 54, and three on line 62), not four. -/
theorem c9_counterexample :
    countPairs isDollarCwd rulesSegs = 5 ∧
    ¬ countPairs isDollarCwd rulesSegs = 4 := by decide

set_option maxRecDepth 8000 in
/-- C9 as amended: the template has one `${cwd}` slot in the capabilities
section and five in the rules section; each renders the literal `$` (the
last character of the preceding literal) immediately followed by the
working-directory value; the system-info section has no `${cwd}` slot but
one bare `{cwd}` slot, which renders the bare working-directory value. -/
theorem c9_dollar_cwd_slots (f : EnvironmentFacts) :
    countPairs isDollarCwd capabilitiesSegs = 1 ∧
    countPairs isDollarCwd rulesSegs = 5 ∧
    countPairs isDollarCwd systemInfoSegs = 0 ∧
    countPairs isBareCwd capabilitiesSegs = 0 ∧
    countPairs isBareCwd rulesSegs = 0 ∧
    countPairs isBareCwd systemInfoSegs = 1 ∧
    (∀ s rest, renderList f (Seg.lit s :: Seg.cwdF :: rest) =
      s ++ (f.workingDirectory ++ renderList f rest)) ∧
    renderSeg f Seg.cwdF = f.workingDirectory := by
  refine ⟨by decide, by decide, by decide, by decide, by decide, by decide,
    ?_, rfl⟩
  intro s rest
  rfl

/-- C10: for every process state and interpreter-path value the composed
document starts with two newline characters (the f-string opens with the
line break after `f\"\"\"` and the blank line 19) and ends with a newline
(the line break closing line 149); neither depends on the resolved facts. -/
theorem c10_framing (st : ProcState) (py : String) :
    (∃ rest, system_prompt_fstring st.environ st.platform_system st.getcwd
        st.expanduser_home py = "\n\n" ++ rest) ∧
    ∃ front, system_prompt_fstring st.environ st.platform_system st.getcwd
        st.expanduser_home py = front ++ "\n" := by
  constructor
  · refine ⟨lit_intro_tail ++ lit_cap_a ++ st.getcwd ++ lit_cap_b ++
      lit_rules_a ++ st.getcwd ++ lit_rules_b ++ st.getcwd ++ lit_rules_c ++
      st.getcwd ++ lit_rules_d ++ st.getcwd ++ lit_rules_e ++ st.getcwd ++
      lit_rules_f ++ lit_mid ++ lit_si_a ++ st.platform_system ++
      lit_si_b ++ pyToString (os_environ_get st.environ "SHELL" (PyVal.vstr "Unknown")) ++
      lit_si_c ++ py ++ lit_si_d ++ st.expanduser_home ++ lit_si_e ++
      st.getcwd ++ lit_si_f, ?_⟩
    unfold system_prompt_fstring lit_intro
    simp only [string_append_assoc]
  · refine ⟨lit_intro ++ lit_cap_a ++ st.getcwd ++ lit_cap_b ++
      lit_rules_a ++ st.getcwd ++ lit_rules_b ++ st.getcwd ++ lit_rules_c ++
      st.getcwd ++ lit_rules_d ++ st.getcwd ++ lit_rules_e ++ st.getcwd ++
      lit_rules_f ++ lit_mid ++ lit_si_a ++ st.platform_system ++
      lit_si_b ++ pyToString (os_environ_get st.environ "SHELL" (PyVal.vstr "Unknown")) ++
      lit_si_c ++ py ++ lit_si_d ++ st.expanduser_home ++ lit_si_e ++
      st.getcwd ++ "\n</system-info>", ?_⟩
    unfold system_prompt_fstring
    rw [show lit_si_f = "\n</system-info>" ++ "\n" from rfl]
    simp only [string_append_assoc]
